import Mathlib

/-!
A verification development for the bulk-sender application (`src/index.js`).

The JavaScript source is shallowly embedded: each relevant function of the
source is translated into a Lean definition operating on explicit data.
External effects (the messaging client, spreadsheet I/O, the random source)
are passed in as explicit parameters or oracle functions, so that every
definition is executable and every control path of the source is represented.
-/

namespace BulkSender

/-! ## JavaScript string primitives used by the source -/

/-- The characters treated as trimmable whitespace by `String.prototype.trim`
(restricted to the ASCII whitespace actually occurring in this data). -/
def isWhitespaceChar (c : Char) : Bool :=
  c = ' ' || c = '\t' || c = '\n' || c = '\r'

/-- Model of `s.trim()`: drop whitespace from both ends. -/
def jsTrim (s : String) : String :=
  ⟨((s.data.dropWhile isWhitespaceChar).reverse.dropWhile isWhitespaceChar).reverse⟩

/-- Model of `s.replace(/[^0-9]/g, '')`: keep only decimal digits. -/
def digitsOnly (s : String) : String :=
  ⟨s.data.filter Char.isDigit⟩

/-- Splitter for `s.split(/[\n,]/)` on character lists: split at every comma
or newline, keeping empty segments, as the JavaScript regex split does. -/
def splitCharsAux : List Char → List Char → List (List Char)
  | [], cur => [cur.reverse]
  | c :: cs, cur =>
      if c = ',' || c = '\n' then cur.reverse :: splitCharsAux cs []
      else splitCharsAux cs (c :: cur)

/-- Model of `numbersText.split(/[\n,]/)`. -/
def jsSplitCommaNewline (s : String) : List String :=
  (splitCharsAux s.data []).map fun l => ⟨l⟩

/-- Model of `s.includes(sub)` for a nonempty search string. -/
def jsIncludes (s sub : String) : Bool :=
  decide ((s.splitOn sub).length ≠ 1)

/-! ## Spreadsheet cells

A cell of column A of the uploaded worksheet, as discriminated by the
source's `typeof cellValue === 'string' || typeof cellValue === 'number'`
test.  A numeric cell is represented by the decimal string the JavaScript
runtime produces for it (`String(cellValue)` / `.toString()`), since the
source only ever consumes the number through that conversion: `"123"` for
an integral cell, but also `"123.45"`, `"-5"`, `"1e+21"` for fractional,
negative, or huge values, `"0"` for both zeroes, and `"NaN"` for `NaN`.  A
number is falsy exactly when it is a zero or `NaN`, i.e. when its string
form is `"0"` or `"NaN"`. -/

inductive CellValue
  | str (s : String)
  | num (toStr : String)
  | other
deriving DecidableEq

/-! ## `validatePhoneNumber` (src/index.js:392-394)

`typeof number === 'string' && number.match(/^\+?\d{10,15}$/)`. -/

/-- Embedding of `validatePhoneNumber`: an optional leading `+` followed by
10 to 15 decimal digits. -/
def validatePhoneNumber (s : String) : Bool :=
  match s.data with
  | '+' :: rest => decide (10 ≤ rest.length) && decide (rest.length ≤ 15) && rest.all Char.isDigit
  | l => decide (10 ≤ l.length) && decide (l.length ≤ 15) && l.all Char.isDigit

/-! ## `extractNumbersFromExcel` (src/index.js:353-389)

The function reads the first worksheet of the uploaded file; any failure
(missing file, unreadable workbook, no worksheet) is caught and turned into
the empty list.  A successful read yields the column-A cells row by row; the
embedding receives that row list (header row included, since the source
skips `rowNumber === 1` itself). -/

/-- Per-row body of `worksheet.eachRow` in `extractNumbersFromExcel`:
string or numeric cells are stringified, trimmed, and kept only when the
strict validator accepts them (unchanged: no digit-stripping, no dedup). -/
def excelRowNumber : CellValue → Option String
  | .str s =>
      let number := jsTrim s
      if validatePhoneNumber number then some number else none
  | .num t =>
      let number := jsTrim t
      if validatePhoneNumber number then some number else none
  | .other => none

/-- Embedding of `extractNumbersFromExcel`.  The argument is the result of
reading the file: `Except.error` for any I/O or format failure (the catch
block returns `[]`), `Except.ok rows` for the column-A cells of the first
worksheet, header row first. -/
def extractNumbersFromExcel (read : Except String (List CellValue)) : List String :=
  match read with
  | .error _ => []
  | .ok rows => (rows.drop 1).filterMap excelRowNumber

/-! ## `parsePhoneNumbers` (src/index.js:397-446) -/

/-- Excel branch of `parsePhoneNumbers` (lines 410-423): for each
non-header row, a string cell is stripped to its digits, while a numeric
cell passes through as `phoneNumber.toString()` with **no
digit-stripping**; falsy cells (`''`, a zero, `NaN`) are skipped by the
outer guard and an empty cleaned string by the `if (cleanNumber)` guard. -/
def cleanCell : CellValue → Option String
  | .str s =>
      if s = "" then none
      else
        let cleanNumber := digitsOnly s
        if cleanNumber = "" then none else some cleanNumber
  | .num t =>
      if t = "0" ∨ t = "NaN" then none
      else if t = "" then none else some t
  | .other => none

/-- The spreadsheet contribution to `parsePhoneNumbers`: column-A cells of
the first worksheet (header row first), or nothing when no `.xlsx` file was
attached to the request. -/
def excelSource : Option (List CellValue) → List String
  | none => []
  | some rows => (rows.drop 1).filterMap cleanCell

/-- Cleaning applied to an explicit-list entry or a text-block segment:
`n.trim().replace(/[^0-9]/g, '')`, discarded when empty. -/
def cleanRaw (n : String) : Option String :=
  let c := digitsOnly (jsTrim n)
  if c = "" then none else some c

/-- The explicit-array contribution: guarded by
`Array.isArray(numbers) && numbers.length > 0`. -/
def listSource : Option (List String) → List String
  | none => []
  | some l => if l.length > 0 then l.filterMap cleanRaw else []

/-- The text-block contribution: guarded by the truthiness of `numbersText`,
split on comma or newline, cleaned per segment. -/
def textSource : Option String → List String
  | none => []
  | some t => if t = "" then [] else (jsSplitCommaNewline t).filterMap cleanRaw

/-- Model of inserting one element into a JavaScript `Set`: already-present
elements keep their original position, new elements go to the end. -/
def jsSetInsert (acc : List String) (x : String) : List String :=
  if x ∈ acc then acc else acc ++ [x]

/-- Model of `[...new Set(l)]`: iteration order of a `Set` is insertion
order, and re-inserting an element does not move it. -/
def jsSetDedup (l : List String) : List String :=
  l.foldl jsSetInsert []

/-- Embedding of `parsePhoneNumbers`: concatenate the three cleaned sources
in source order (spreadsheet, explicit array, text block) and deduplicate
via `[...new Set(...)]`. -/
def parsePhoneNumbers (file : Option (List CellValue)) (numbers : Option (List String))
    (numbersText : Option String) : List String :=
  jsSetDedup (excelSource file ++ listSource numbers ++ textSource numbersText)

end BulkSender

namespace BulkSender

/-! ## First-occurrence deduplication, specified independently

`keepFirstAux seen l` keeps each element of `l` not in `seen` at its first
occurrence and drops all later duplicates. -/

def keepFirstAux : List String → List String → List String
  | _, [] => []
  | seen, x :: xs =>
      if x ∈ seen then keepFirstAux seen xs
      else x :: keepFirstAux (x :: seen) xs

/-- Insertion-order-preserving deduplication: keep the first occurrence of
every element, drop later duplicates. -/
def keepFirst (l : List String) : List String :=
  keepFirstAux [] l

theorem foldl_jsSetInsert_eq (l : List String) :
    ∀ (acc seen : List String), (∀ x, x ∈ seen ↔ x ∈ acc) →
      l.foldl jsSetInsert acc = acc ++ keepFirstAux seen l := by
  induction l with
  | nil => intro acc seen _; simp [keepFirstAux]
  | cons x xs ih =>
      intro acc seen hmem
      by_cases hx : x ∈ acc
      · have hxs : x ∈ seen := (hmem x).mpr hx
        simp only [List.foldl_cons, jsSetInsert, if_pos hx, keepFirstAux, if_pos hxs]
        exact ih acc seen hmem
      · have hxs : x ∉ seen := fun h => hx ((hmem x).mp h)
        simp only [List.foldl_cons, jsSetInsert, if_neg hx, keepFirstAux, if_neg hxs]
        have := ih (acc ++ [x]) (x :: seen) (by
          intro y
          have hy := hmem y
          simp only [List.mem_cons, List.mem_append, List.mem_singleton]
          tauto)
        rw [this, List.append_assoc]
        rfl

/-- The JavaScript `Set` round trip is exactly first-occurrence
deduplication. -/
theorem jsSetDedup_eq_keepFirst (l : List String) : jsSetDedup l = keepFirst l := by
  have := foldl_jsSetInsert_eq l [] [] (by intro x; simp)
  simpa [jsSetDedup, keepFirst] using this

theorem mem_keepFirstAux {x : String} :
    ∀ {l seen : List String}, x ∈ keepFirstAux seen l → x ∈ l ∧ x ∉ seen := by
  intro l
  induction l with
  | nil => intro seen h; simp [keepFirstAux] at h
  | cons y ys ih =>
      intro seen h
      by_cases hy : y ∈ seen
      · simp only [keepFirstAux, if_pos hy] at h
        obtain ⟨h1, h2⟩ := ih h
        exact ⟨List.mem_cons_of_mem _ h1, h2⟩
      · simp only [keepFirstAux, if_neg hy] at h
        rcases List.mem_cons.mp h with rfl | h
        · exact ⟨List.mem_cons_self _ _, hy⟩
        · obtain ⟨h1, h2⟩ := ih h
          refine ⟨List.mem_cons_of_mem _ h1, fun hs => h2 (List.mem_cons_of_mem _ hs)⟩

theorem keepFirstAux_nodup : ∀ (l seen : List String), (keepFirstAux seen l).Nodup := by
  intro l
  induction l with
  | nil => intro seen; simp [keepFirstAux]
  | cons y ys ih =>
      intro seen
      by_cases hy : y ∈ seen
      · simp only [keepFirstAux, if_pos hy]; exact ih seen
      · simp only [keepFirstAux, if_neg hy]
        refine List.nodup_cons.mpr ⟨?_, ih (y :: seen)⟩
        intro hmem
        exact (mem_keepFirstAux hmem).2 (List.mem_cons_self _ _)

/-- The deduplicated list has no duplicates. -/
theorem jsSetDedup_nodup (l : List String) : (jsSetDedup l).Nodup := by
  rw [jsSetDedup_eq_keepFirst]; exact keepFirstAux_nodup l []

/-- Every element of the deduplicated list comes from the input. -/
theorem mem_of_mem_jsSetDedup {x : String} {l : List String}
    (h : x ∈ jsSetDedup l) : x ∈ l := by
  rw [jsSetDedup_eq_keepFirst] at h
  exact (mem_keepFirstAux h).1

end BulkSender

namespace BulkSender

/-! ## The inter-send delay of the dispatch loop (src/index.js:646-649)

```
if (i > 0 && delaySeconds > 3) {
    const randomDelay = Math.floor(Math.random() * (delaySeconds - 3 + 1)) + 3;
    await new Promise(resolve => setTimeout(resolve, randomDelay * 1000));
}
```
`Math.random()` is modelled as a rational `r` with `0 ≤ r < 1`; the computed
number of seconds slept before send `i` is returned (`none` when the branch
does not sleep). -/

/-- Seconds slept before send index `i`, for delay parameter `d` (already a
number) and random draw `r`. -/
def dispatchDelay (d : ℚ) (i : Nat) (r : ℚ) : Option ℤ :=
  if i > 0 ∧ d > 3 then some (⌊r * (d - 3 + 1)⌋ + 3) else none

/-- A request-body value as relevant to `delaySeconds`: multipart body
fields arrive as strings, JSON bodies may carry numbers. -/
inductive JSVal
  | str (s : String)
  | num (q : ℚ)

/-- The numeric coercion applied by `delaySeconds > 3` and
`delaySeconds - 3 + 1`: a number is itself; a string goes through `ToNumber`
(the conversion function is a parameter; `none` models `NaN`); an absent
field is replaced by the destructuring default `1`. -/
def coerceDelay (toNumber : String → Option ℚ) : Option JSVal → Option ℚ
  | none => some 1
  | some (.num q) => some q
  | some (.str s) => toNumber s

/-- The delay computation as performed by the endpoint on the raw body
field: a `NaN` coercion makes `delaySeconds > 3` false, hence no sleep. -/
def dispatchDelayJS (toNumber : String → Option ℚ) (v : Option JSVal)
    (i : Nat) (r : ℚ) : Option ℤ :=
  match coerceDelay toNumber v with
  | none => none
  | some d => dispatchDelay d i r

end BulkSender

namespace BulkSender

/-! ## `sendMessage` (src/index.js:117-149)

The external client is an oracle: `isRegisteredUser`, the two
`client.sendMessage` forms, and `MessageMedia.fromFilePath` each either
return or throw (`Except.error`).  The second component of the result
counts how many `client.sendMessage` calls were made. -/

/-- The per-recipient outcome record returned by `sendMessage`. -/
structure Outcome where
  success : Bool
  phoneNumber : String
  status : String
  error : Option String
deriving DecidableEq

/-- The external automation client, as seen by `sendMessage`. -/
structure Gateway where
  isRegisteredUser : String → Except String Bool
  sendTextMessage : String → String → Except String Unit
  loadMedia : String → Except String Unit
  sendMediaMessage : String → String → Except String Unit

/-- `phoneNumber?.includes('@c.us') ? phoneNumber : phoneNumber + '@c.us'`. -/
def formatNumber (phoneNumber : String) : String :=
  if jsIncludes phoneNumber "@c.us" then phoneNumber else phoneNumber ++ "@c.us"

/-- Embedding of `sendMessage`: registration check, optional media load,
send, with every throw caught and converted to an `error` outcome. -/
def sendMessage (g : Gateway) (phoneNumber message : String)
    (mediaPath : Option String) : Outcome × Nat :=
  let formattedNumber := formatNumber phoneNumber
  match g.isRegisteredUser formattedNumber with
  | .error e =>
      ({ success := false, phoneNumber := phoneNumber, status := "error", error := some e }, 0)
  | .ok false =>
      ({ success := false, phoneNumber := phoneNumber, status := "not_registered", error := none }, 0)
  | .ok true =>
      match mediaPath with
      | some p =>
          match g.loadMedia p with
          | .error e =>
              ({ success := false, phoneNumber := phoneNumber, status := "error", error := some e }, 0)
          | .ok _ =>
              match g.sendMediaMessage formattedNumber message with
              | .error e =>
                  ({ success := false, phoneNumber := phoneNumber, status := "error", error := some e }, 1)
              | .ok _ =>
                  ({ success := true, phoneNumber := phoneNumber, status := "sent", error := none }, 1)
      | none =>
          match g.sendTextMessage formattedNumber message with
          | .error e =>
              ({ success := false, phoneNumber := phoneNumber, status := "error", error := some e }, 1)
          | .ok _ =>
              ({ success := true, phoneNumber := phoneNumber, status := "sent", error := none }, 1)

/-- The dispatch loop of `POST /api/send` (src/index.js:642-658), result
accumulation only: one `sendMessage` per recipient, in list order; the
randomized sleep does not affect the accumulated outcomes, and `sendMessage`
never throws, so the loop's own catch never fires. -/
def dispatchLoop (g : Gateway) (numbers : List String) (message : String)
    (mediaPath : Option String) : List Outcome :=
  numbers.map fun n => (sendMessage g n message mediaPath).1

theorem sendMessage_phoneNumber (g : Gateway) (pn msg : String) (mp : Option String) :
    ((sendMessage g pn msg mp).1).phoneNumber = pn := by
  simp only [sendMessage]
  repeat first | rfl | split

theorem sendMessage_of_reg_error (g : Gateway) (pn msg : String) (mp : Option String)
    (e : String) (hreg : g.isRegisteredUser (formatNumber pn) = .error e) :
    sendMessage g pn msg mp =
      ({ success := false, phoneNumber := pn, status := "error", error := some e }, 0) := by
  simp only [sendMessage, hreg]

theorem sendMessage_of_not_registered (g : Gateway) (pn msg : String) (mp : Option String)
    (hreg : g.isRegisteredUser (formatNumber pn) = .ok false) :
    sendMessage g pn msg mp =
      ({ success := false, phoneNumber := pn, status := "not_registered", error := none }, 0) := by
  simp only [sendMessage, hreg]

theorem sendMessage_of_text_error (g : Gateway) (pn msg : String) (e : String)
    (hreg : g.isRegisteredUser (formatNumber pn) = .ok true)
    (hsend : g.sendTextMessage (formatNumber pn) msg = .error e) :
    sendMessage g pn msg none =
      ({ success := false, phoneNumber := pn, status := "error", error := some e }, 1) := by
  simp only [sendMessage, hreg, hsend]

theorem sendMessage_of_media_load_error (g : Gateway) (pn msg p e : String)
    (hreg : g.isRegisteredUser (formatNumber pn) = .ok true)
    (hload : g.loadMedia p = .error e) :
    sendMessage g pn msg (some p) =
      ({ success := false, phoneNumber := pn, status := "error", error := some e }, 0) := by
  simp only [sendMessage, hreg, hload]

theorem sendMessage_of_media_send_error (g : Gateway) (pn msg p e : String)
    (hreg : g.isRegisteredUser (formatNumber pn) = .ok true)
    (hload : g.loadMedia p = .ok ())
    (hsend : g.sendMediaMessage (formatNumber pn) msg = .error e) :
    sendMessage g pn msg (some p) =
      ({ success := false, phoneNumber := pn, status := "error", error := some e }, 1) := by
  simp only [sendMessage, hreg, hload, hsend]

theorem sendMessage_status_mem (g : Gateway) (pn msg : String) (mp : Option String) :
    ((sendMessage g pn msg mp).1).status ∈ (["sent", "not_registered", "error"] : List String) := by
  rcases hreg : g.isRegisteredUser (formatNumber pn) with e | b
  · rw [sendMessage_of_reg_error g pn msg mp e hreg]; simp
  · cases b with
    | false => rw [sendMessage_of_not_registered g pn msg mp hreg]; simp
    | true =>
        cases mp with
        | none =>
            rcases hsend : g.sendTextMessage (formatNumber pn) msg with e | u
            · rw [sendMessage_of_text_error g pn msg e hreg hsend]; simp
            · simp only [sendMessage, hreg, hsend]; simp
        | some p =>
            rcases hload : g.loadMedia p with e | u
            · simp only [sendMessage, hreg, hload]; simp
            · rcases hsend : g.sendMediaMessage (formatNumber pn) msg with e | u
              · simp only [sendMessage, hreg, hload, hsend]; simp
              · simp only [sendMessage, hreg, hload, hsend]; simp

end BulkSender

namespace BulkSender

/-! ## `extractGroupContacts` (src/index.js:152-269)

Participant objects coming out of the undocumented client graph take three
shapes, discriminated by the source at lines 220-226: a plain string, an
object with an `id` field (itself either an object carrying `_serialized`
or a plain string), or an object carrying only `_serialized`. -/

inductive IdShape
  | serializedField (s : String)
  | plainId (s : String)
deriving DecidableEq

inductive Participant
  | plain (s : String)
  | withId (i : IdShape)
  | withSerialized (s : String)
deriving DecidableEq

/-- The value a participant-identifier expression can produce: a string, a
non-string object (on which `.split` would throw), or `undefined`. -/
inductive ExtractedId
  | strId (s : String)
  | objId
  | undefinedId
deriving DecidableEq

/-- Main-path identifier extraction (lines 220-226): `typeof participant
=== 'string'`, else `participant.id` (using `participant.id._serialized ||
participant.id`, where an empty `_serialized` string is falsy and yields
the raw `id` object), else `participant._serialized`. An empty plain `id`
or `_serialized` string fails its truthiness guard and leaves the
identifier `undefined`. -/
def participantIdOf : Participant → ExtractedId
  | .plain s => .strId s
  | .withId (.serializedField s) => if s = "" then .objId else .strId s
  | .withId (.plainId s) => if s = "" then .undefinedId else .strId s
  | .withSerialized s => if s = "" then .undefinedId else .strId s

/-- `if (!participantId) continue`: `undefined` and the empty string are
falsy; a non-string object is truthy. -/
def idTruthy : ExtractedId → Bool
  | .strId s => decide (s ≠ "")
  | .objId => true
  | .undefinedId => false

/-- Catch-path identifier expression (lines 248-249):
`participant.id?._serialized || participant.id || participant`.  For a
participant carrying only `_serialized` this falls through to the
participant object itself, which is not a string. -/
def fallbackIdOf : Participant → ExtractedId
  | .plain s => .strId s
  | .withId (.serializedField s) => if s = "" then .objId else .strId s
  | .withId (.plainId s) => if s = "" then .objId else .strId s
  | .withSerialized _ => .objId

/-- `s.split('@')[0]`: the prefix before the first `@`. -/
def splitAtHead (s : String) : String :=
  ⟨s.data.takeWhile fun c => !(c = '@')⟩

/-- Contact details returned by `client.getContactById`. -/
structure ContactInfo where
  number : String
  name : String
  pushname : String
  isMyContact : Bool
deriving DecidableEq

/-- JavaScript `a || b` on strings: the empty string is falsy. -/
def jsOrS (a b : String) : String :=
  if a = "" then b else a

/-- A record pushed onto the `contacts` array.  The `id` field holds
whatever the identifier expression produced (the source pushes it without
conversion, so it need not be a string). -/
structure ContactRec where
  id : ExtractedId
  number : String
  name : String
  isMyContact : Bool
deriving DecidableEq

/-- On the success path the number is `contact.number ||
participantId.split('@')[0]`; the split throws (`none`) when the identifier
is not a string. -/
def successNumber : ExtractedId → ContactInfo → Option String
  | eid, contact =>
      if contact.number ≠ "" then some contact.number
      else
        match eid with
        | .strId s => some (splitAtHead s)
        | _ => none

end BulkSender

namespace BulkSender

/-- The degraded record built in the per-participant catch (lines 246-252).
`number` is computed by calling `.split('@')` on the fallback identifier;
when that identifier is not a string, the call throws and the inner catch
drops the participant (`none`). -/
def degradedRecord (p : Participant) : Option ContactRec :=
  match fallbackIdOf p with
  | .strId s => some { id := .strId s, number := splitAtHead s, name := "Unknown", isMyContact := false }
  | _ => none

/-- Per-participant body of the extraction loop (lines 215-257).
`oracle` is `client.getContactById`, keyed by the extracted identifier
value; a falsy identifier means `continue`; any throw — from the lookup or
from building the pushed record — lands in the catch that attempts the
degraded record. -/
def processParticipant (oracle : ExtractedId → Except String ContactInfo)
    (p : Participant) : Option ContactRec :=
  let participantId := participantIdOf p
  if idTruthy participantId then
    match oracle participantId with
    | .ok contact =>
        match successNumber participantId contact with
        | some num =>
            some { id := participantId, number := num,
                   name := jsOrS (jsOrS contact.name contact.pushname) "Unknown",
                   isMyContact := contact.isMyContact }
        | none => degradedRecord p
    | .error _ => degradedRecord p
  else none

/-- The contacts array accumulated over a participant list, in order. -/
def extractContacts (oracle : ExtractedId → Except String ContactInfo)
    (participants : List Participant) : List ContactRec :=
  participants.filterMap (processParticipant oracle)

/-- The `chat.participants` property (lines 176-180): a callable, a
thenable, or anything else (in which case nothing is assigned). -/
inductive PropShape
  | callable (r : Except String (List Participant))
  | thenable (r : Except String (List Participant))
  | absent

/-- The chat object resolved by `client.getChatById`, restricted to the
fields `extractGroupContacts` reads.  `fetchMetaResult` is the outcome of
`client.getGroupMetadata` (its `participants` field may be missing);
`rawEvalResult` is the outcome of the `pupPage.evaluate` last resort. -/
structure GroupChat where
  name : String
  metaParticipants : Option (List Participant)
  fetchMetaResult : Except String (Option (List Participant))
  participantsProp : PropShape
  rawEvalResult : Except String (List Participant)

/-- What the property fallback leaves in `participants`: the fetched list
on success, the initial `[]` when the property is unusable or its await
throws. -/
def propParticipants : PropShape → List Participant
  | .callable (.ok l) => l
  | .callable (.error _) => []
  | .thenable (.ok l) => l
  | .thenable (.error _) => []
  | .absent => []

/-- Stage one of participant resolution (lines 156-185): the pre-populated
`groupMetadata.participants` array if present; otherwise the explicit
metadata fetch; on its failure, the `participants`-property fallback.  The
second component records each fallback strategy as it is attempted, in
order. -/
def resolveStage1 (c : GroupChat) : List Participant × List String :=
  match c.metaParticipants with
  | some ps => (ps, ["metaArray"])
  | none =>
      match c.fetchMetaResult with
      | .ok meta => (meta.getD [], ["fetchMeta"])
      | .error _ => (propParticipants c.participantsProp, ["fetchMeta", "propFallback"])

/-- Full participant resolution (lines 156-211): when stage one produced an
empty list, attempt the raw evaluation against the internal data layer,
adopting its result only when it is nonempty. -/
def resolveParticipants (c : GroupChat) : List Participant × List String :=
  let stage1 := resolveStage1 c
  if stage1.1.isEmpty then
    match c.rawEvalResult with
    | .ok l => (if l.isEmpty then stage1.1 else l, stage1.2 ++ ["rawEval"])
    | .error _ => (stage1.1, stage1.2 ++ ["rawEval"])
  else stage1

/-- The result record of `extractGroupContacts`. -/
structure GroupResult where
  success : Bool
  groupName : String
  participantCount : Nat
  contacts : List ContactRec
  error : Option String
deriving DecidableEq

/-- Embedding of `extractGroupContacts`: resolve the chat (`lookup` is the
`client.getChatById` outcome), resolve participants through the fallback
chain, then process each participant. -/
def extractGroupContacts (lookup : Except String GroupChat)
    (oracle : ExtractedId → Except String ContactInfo) : GroupResult :=
  match lookup with
  | .error e => { success := false, groupName := "", participantCount := 0,
                  contacts := [], error := some e }
  | .ok chat =>
      let participants := (resolveParticipants chat).1
      { success := true, groupName := chat.name,
        participantCount := participants.length,
        contacts := extractContacts oracle participants, error := none }

end BulkSender

namespace BulkSender

/-! ## `generateExcelFile` (src/index.js:324-350)

`worksheet.columns = [...]` fixes the header row; each `addRow(contact)`
appends one data row, cells taken from the record by column key. -/

/-- A contact/group record as passed to the exporter. -/
structure ExportContact where
  id : String
  number : String
  name : String
  isMyContact : Bool
  isBusiness : Option Bool
deriving DecidableEq

/-- A written worksheet cell: string, boolean, or blank (for an `undefined`
record field). -/
inductive ExportCell
  | s (v : String)
  | b (v : Bool)
  | blank
deriving DecidableEq

/-- The fixed column headers set at lines 329-335. -/
def contactColumnHeaders : List String :=
  ["Name", "Number", "Is Saved Contact", "Is Business", "WhatsApp ID"]

/-- `worksheet.addRow(contact)`: one cell per column, looked up by key
(`name`, `number`, `isMyContact`, `isBusiness`, `id`). -/
def rowOfContact (c : ExportContact) : List ExportCell :=
  [.s c.name, .s c.number, .b c.isMyContact,
   (match c.isBusiness with | some v => .b v | none => .blank), .s c.id]

/-- The first worksheet of the workbook written by `generateExcelFile`. -/
structure ExcelSheet where
  headerRow : List String
  dataRows : List (List ExportCell)
deriving DecidableEq

/-- Embedding of `generateExcelFile` (the written worksheet; path handling
is I/O glue outside the data contract). -/
def generateExcelFile (contacts : List ExportContact) : ExcelSheet :=
  { headerRow := contactColumnHeaders,
    dataRows := contacts.map rowOfContact }

/-! ## `POST /api/send` (src/index.js:596-666) -/

/-- The request as seen by the handler.  `excelUpload` models
`req.files['excel']`: absent, or present with the outcome of reading the
uploaded workbook.  Note the route uses `upload.fields`, which populates
`req.files` but never `req.file`, so the `req.file` branch inside
`parsePhoneNumbers` receives nothing on this route. -/
structure SendRequest where
  message : Option String
  ready : Bool
  excelUpload : Option (Except String (List CellValue))
  mediaUpload : Bool
  numbers : Option (List String)
  numbersText : Option String

/-- The handler's response statuses: 400, 503, or the success
acknowledgment (JSON with recipient count and media flag). -/
inductive SendResponse
  | badRequest (error : String)
  | notReady
  | accepted (count : Nat) (mediaAttached : Bool)
deriving DecidableEq

/-- `!message`: missing or empty string. -/
def messageFalsy : Option String → Bool
  | none => true
  | some s => decide (s = "")

/-- Recipient resolution of the handler (lines 612-618): the standalone
extractor when an excel file was uploaded, the unified parser otherwise. -/
def resolveRecipients (req : SendRequest) : List String :=
  match req.excelUpload with
  | some file => extractNumbersFromExcel file
  | none => parsePhoneNumbers none req.numbers req.numbersText

/-- Embedding of the `POST /api/send` handler up to its acknowledgment
response (lines 596-639). -/
def handleSend (req : SendRequest) : SendResponse :=
  if messageFalsy req.message then .badRequest "Message is required"
  else if !req.ready then .notReady
  else
    let numbers := resolveRecipients req
    if numbers.isEmpty then
      .badRequest "No valid phone numbers found. Please provide recipients."
    else .accepted numbers.length req.mediaUpload

end BulkSender

namespace BulkSender

/-! ## Claim theorems -/

theorem dispatchDelay_of_first (d : ℚ) (r : ℚ) : dispatchDelay d 0 r = none := by
  simp [dispatchDelay]

theorem dispatchDelay_of_le_three {d : ℚ} (i : Nat) (r : ℚ) (h : d ≤ 3) :
    dispatchDelay d i r = none := by
  have hc : ¬ (i > 0 ∧ d > 3) := fun hc => absurd hc.2 (not_lt.mpr h)
  simp only [dispatchDelay, if_neg hc]

/-- **C2**: in the dispatch loop, no sleep ever occurs before the first
send; with `delaySeconds ≤ 3` no sleep occurs between any two sends; and
with `delaySeconds = 10`, for every value of the random source in `[0,1)`,
each inter-send sleep is an integer number of seconds in `[3, 10]`. -/
theorem C2_dispatch_loop_delays (d : ℚ) (i : Nat) (r : ℚ) :
    (i = 0 → dispatchDelay d i r = none)
    ∧ (d ≤ 3 → dispatchDelay d i r = none)
    ∧ (d = 10 → 0 < i → 0 ≤ r → r < 1 →
        ∃ k : ℤ, dispatchDelay d i r = some k ∧ 3 ≤ k ∧ k ≤ 10) := by
  refine ⟨fun h => by rw [h]; exact dispatchDelay_of_first d r,
          fun h => dispatchDelay_of_le_three i r h, ?_⟩
  intro hd hi hr0 hr1
  subst hd
  refine ⟨⌊r * (8:ℚ)⌋ + 3, ?_, ?_, ?_⟩
  · simp only [dispatchDelay]
    rw [if_pos ⟨hi, by norm_num⟩]
    norm_num
  · have := Int.floor_nonneg.mpr (by positivity : 0 ≤ r * (8:ℚ))
    omega
  · have h2 : ⌊r * (8:ℚ)⌋ < 8 := Int.floor_lt.mpr (by push_cast; nlinarith)
    omega

theorem C2_witness :
    ∃ k : ℤ, dispatchDelay 10 1 (1/2) = some k ∧ 3 ≤ k ∧ k ≤ 10 :=
  (C2_dispatch_loop_delays 10 1 (1/2)).2.2 rfl (by norm_num) (by norm_num) (by norm_num)

/-- **C10**: the delay computation is total in the raw `delaySeconds` body
field: every value (number, string — numeric or not — or absent, which
defaults to `1`) yields either no sleep or a well-defined integer sleep; a
value whose numeric coercion fails, or is not greater than 3, and the
absent/default case, all result in no inter-send delay. -/
theorem C10_delay_total (toNumber : String → Option ℚ) (v : Option JSVal)
    (i : Nat) (r : ℚ) :
    (dispatchDelayJS toNumber v i r = none
      ∨ ∃ k : ℤ, dispatchDelayJS toNumber v i r = some k)
    ∧ (∀ s, v = some (JSVal.str s) → toNumber s = none →
        dispatchDelayJS toNumber v i r = none)
    ∧ (∀ d, coerceDelay toNumber v = some d → d ≤ 3 →
        dispatchDelayJS toNumber v i r = none)
    ∧ (v = none → dispatchDelayJS toNumber v i r = none) := by
  refine ⟨?_, ?_, ?_, ?_⟩
  · cases h : dispatchDelayJS toNumber v i r with
    | none => exact Or.inl rfl
    | some k => exact Or.inr ⟨k, rfl⟩
  · intro s hv hnan
    subst hv
    simp [dispatchDelayJS, coerceDelay, hnan]
  · intro d hcoerce hle
    simp only [dispatchDelayJS, hcoerce]
    exact dispatchDelay_of_le_three i r hle
  · intro hv
    subst hv
    simp only [dispatchDelayJS, coerceDelay]
    exact dispatchDelay_of_le_three i r (by norm_num)

theorem C10_witness :
    dispatchDelayJS (fun _ => none) (some (JSVal.str "soon")) 5 (1/2) = none :=
  (C10_delay_total (fun _ => none) (some (JSVal.str "soon")) 5 (1/2)).2.1 "soon" rfl rfl

/-- **C7**: the unified parser on the text block
`"+1 555-000-1111, 5550002222\n5550002222"` alone produces exactly
`["15550001111", "5550002222"]`: split on comma/newline, all non-digits
(including `+`) stripped, duplicate removed. -/
theorem C7_text_block_example :
    parsePhoneNumbers none none (some "+1 555-000-1111, 5550002222\n5550002222")
      = ["15550001111", "5550002222"] := by
  decide

/-- **C8**: exporting an empty contact list yields a worksheet with exactly
the fixed header row (Name, Number, Is Saved Contact, Is Business, platform
id — concretely `WhatsApp ID`) and zero data rows. -/
theorem C8_empty_export :
    generateExcelFile [] =
      { headerRow := ["Name", "Number", "Is Saved Contact", "Is Business", "WhatsApp ID"],
        dataRows := [] } :=
  rfl

end BulkSender

namespace BulkSender

/-- **C4**: `POST /api/send` returns 400 when the message is missing or
empty (checked first, for any readiness and recipients); 503 when the
message is valid but the client is not ready, regardless of the supplied
recipients; and 400 when the message is valid, the client is ready, and no
recipients resolve from the three sources. -/
theorem C4_send_statuses (req : SendRequest) :
    (messageFalsy req.message = true →
        handleSend req = .badRequest "Message is required")
    ∧ (messageFalsy req.message = false → req.ready = false →
        handleSend req = .notReady)
    ∧ (messageFalsy req.message = false → req.ready = true →
        resolveRecipients req = [] →
        handleSend req = .badRequest "No valid phone numbers found. Please provide recipients.") := by
  refine ⟨?_, ?_, ?_⟩
  · intro h
    simp [handleSend, h]
  · intro h1 h2
    simp [handleSend, h1, h2]
  · intro h1 h2 h3
    simp [handleSend, h1, h2, h3]

theorem C4_witness :
    handleSend { message := none, ready := true, excelUpload := none,
                 mediaUpload := false, numbers := none, numbersText := none }
        = SendResponse.badRequest "Message is required"
    ∧ handleSend { message := some "hello", ready := false, excelUpload := none,
                   mediaUpload := false, numbers := some ["15550001111"], numbersText := none }
        = SendResponse.notReady
    ∧ handleSend { message := some "hello", ready := true, excelUpload := none,
                   mediaUpload := false, numbers := none, numbersText := none }
        = SendResponse.badRequest "No valid phone numbers found. Please provide recipients." :=
  ⟨(C4_send_statuses _).1 rfl,
   (C4_send_statuses _).2.1 rfl rfl,
   (C4_send_statuses _).2.2 rfl rfl rfl⟩

/-- **C5**: `sendMessage` returns a `not_registered`, `success = false`
outcome without attempting a send when the platform reports the identity
unregistered; returns an `error`, `success = false` outcome carrying the
error's description when the registration check, the media load, or the
send throws; and never propagates an exception — every run produces a
structured outcome whose status is one of `sent`, `not_registered`,
`error`.  The second component counts `client.sendMessage` calls. -/
theorem C5_sendMessage_outcomes (g : Gateway) (pn msg : String) (mp : Option String) :
    (g.isRegisteredUser (formatNumber pn) = .ok false →
      sendMessage g pn msg mp =
        ({ success := false, phoneNumber := pn, status := "not_registered", error := none }, 0))
    ∧ (∀ e, g.isRegisteredUser (formatNumber pn) = .error e →
      sendMessage g pn msg mp =
        ({ success := false, phoneNumber := pn, status := "error", error := some e }, 0))
    ∧ (∀ e, g.isRegisteredUser (formatNumber pn) = .ok true → mp = none →
        g.sendTextMessage (formatNumber pn) msg = .error e →
      sendMessage g pn msg mp =
        ({ success := false, phoneNumber := pn, status := "error", error := some e }, 1))
    ∧ (∀ e p, g.isRegisteredUser (formatNumber pn) = .ok true → mp = some p →
        g.loadMedia p = .error e →
      sendMessage g pn msg mp =
        ({ success := false, phoneNumber := pn, status := "error", error := some e }, 0))
    ∧ (∀ e p, g.isRegisteredUser (formatNumber pn) = .ok true → mp = some p →
        g.loadMedia p = .ok () → g.sendMediaMessage (formatNumber pn) msg = .error e →
      sendMessage g pn msg mp =
        ({ success := false, phoneNumber := pn, status := "error", error := some e }, 1))
    ∧ ((sendMessage g pn msg mp).1).status ∈ (["sent", "not_registered", "error"] : List String) :=
  ⟨fun h => sendMessage_of_not_registered g pn msg mp h,
   fun e h => sendMessage_of_reg_error g pn msg mp e h,
   fun e h1 h2 h3 => by subst h2; exact sendMessage_of_text_error g pn msg e h1 h3,
   fun e p h1 h2 h3 => by subst h2; exact sendMessage_of_media_load_error g pn msg p e h1 h3,
   fun e p h1 h2 h3 h4 => by
     subst h2; exact sendMessage_of_media_send_error g pn msg p e h1 h3 h4,
   sendMessage_status_mem g pn msg mp⟩

theorem C5_witness :
    sendMessage
        { isRegisteredUser := fun _ => .ok false,
          sendTextMessage := fun _ _ => .ok (),
          loadMedia := fun _ => .ok (),
          sendMediaMessage := fun _ _ => .ok () }
        "15550001111" "hello" none
      = ({ success := false, phoneNumber := "15550001111",
           status := "not_registered", error := none }, 0) :=
  (C5_sendMessage_outcomes _ "15550001111" "hello" none).1 rfl

theorem dispatchLoop_phoneNumbers (g : Gateway) (msg : String) (mp : Option String) :
    ∀ l : List String, (dispatchLoop g l msg mp).map Outcome.phoneNumber = l := by
  intro l
  induction l with
  | nil => rfl
  | cons x xs ih =>
      simp only [dispatchLoop, List.map_cons] at ih ⊢
      rw [sendMessage_phoneNumber, ih]

/-- **C9**: the recipient order the dispatch loop iterates is deterministic:
the parser output is exactly first-occurrence-order deduplication of the
concatenation spreadsheet rows ++ explicit list ++ text-block entries, and
the loop produces one outcome per recipient in exactly that order. -/
theorem C9_recipient_order (file : Option (List CellValue))
    (numbers : Option (List String)) (numbersText : Option String)
    (g : Gateway) (msg : String) (mp : Option String) :
    parsePhoneNumbers file numbers numbersText
      = keepFirst (excelSource file ++ listSource numbers ++ textSource numbersText)
    ∧ (dispatchLoop g (parsePhoneNumbers file numbers numbersText) msg mp).map
        Outcome.phoneNumber
      = parsePhoneNumbers file numbers numbersText :=
  ⟨jsSetDedup_eq_keepFirst _, dispatchLoop_phoneNumbers g msg mp _⟩

theorem C9_witness :
    parsePhoneNumbers none (some ["555-000-2222", "5550002222", "5550001111"]) none
      = keepFirst (excelSource none
          ++ listSource (some ["555-000-2222", "5550002222", "5550001111"])
          ++ textSource none)
    ∧ (dispatchLoop
          { isRegisteredUser := fun _ => .ok false,
            sendTextMessage := fun _ _ => .ok (),
            loadMedia := fun _ => .ok (),
            sendMediaMessage := fun _ _ => .ok () }
          (parsePhoneNumbers none (some ["555-000-2222", "5550002222", "5550001111"]) none)
          "hello" none).map Outcome.phoneNumber
      = parsePhoneNumbers none (some ["555-000-2222", "5550002222", "5550001111"]) none :=
  C9_recipient_order none (some ["555-000-2222", "5550002222", "5550001111"]) none _ "hello" none

end BulkSender

namespace BulkSender

theorem digitsOnly_all (s : String) : (digitsOnly s).data.all Char.isDigit = true := by
  rw [List.all_eq_true]
  intro c hc
  have : c ∈ s.data.filter Char.isDigit := hc
  exact (List.mem_filter.mp this).2

theorem cleanCell_ne_empty {cell : CellValue} {s : String}
    (h : cleanCell cell = some s) : s ≠ "" := by
  cases cell with
  | str t =>
      simp only [cleanCell] at h
      by_cases h1 : t = ""
      · rw [if_pos h1] at h; exact absurd h (by simp)
      · rw [if_neg h1] at h
        by_cases h2 : digitsOnly t = ""
        · rw [if_pos h2] at h; exact absurd h (by simp)
        · rw [if_neg h2] at h
          injection h with hh
          subst hh
          exact h2
  | num t =>
      simp only [cleanCell] at h
      by_cases h1 : t = "0" ∨ t = "NaN"
      · rw [if_pos h1] at h; exact absurd h (by simp)
      · rw [if_neg h1] at h
        by_cases h2 : t = ""
        · rw [if_pos h2] at h; exact absurd h (by simp)
        · rw [if_neg h2] at h
          injection h with hh
          subst hh
          exact h2
  | other => exact absurd h (by simp [cleanCell])

theorem cleanCell_str_digits {t s : String}
    (h : cleanCell (CellValue.str t) = some s) : s.data.all Char.isDigit = true := by
  simp only [cleanCell] at h
  by_cases h1 : t = ""
  · rw [if_pos h1] at h; exact absurd h (by simp)
  · rw [if_neg h1] at h
    by_cases h2 : digitsOnly t = ""
    · rw [if_pos h2] at h; exact absurd h (by simp)
    · rw [if_neg h2] at h
      injection h with hh
      subst hh
      exact digitsOnly_all t

theorem cleanCell_num_passthrough {t : String} (h0 : t ≠ "0") (h1 : t ≠ "NaN")
    (h2 : t ≠ "") : cleanCell (CellValue.num t) = some t := by
  simp only [cleanCell]
  rw [if_neg (not_or.mpr ⟨h0, h1⟩), if_neg h2]

theorem cleanRaw_spec {n s : String} (h : cleanRaw n = some s) :
    s ≠ "" ∧ s.data.all Char.isDigit = true := by
  simp only [cleanRaw] at h
  by_cases h1 : digitsOnly (jsTrim n) = ""
  · rw [if_pos h1] at h; exact absurd h (by simp)
  · rw [if_neg h1] at h
    injection h with hh
    subst hh
    exact ⟨h1, digitsOnly_all _⟩

theorem excelRowNumber_spec {cell : CellValue} {s : String}
    (h : excelRowNumber cell = some s) : validatePhoneNumber s = true := by
  cases cell with
  | str t =>
      simp only [excelRowNumber] at h
      by_cases h1 : validatePhoneNumber (jsTrim t) = true
      · rw [if_pos h1] at h
        injection h with hh
        subst hh
        exact h1
      · rw [if_neg h1] at h; exact absurd h (by simp)
  | num t =>
      simp only [excelRowNumber] at h
      by_cases h1 : validatePhoneNumber (jsTrim t) = true
      · rw [if_pos h1] at h
        injection h with hh
        subst hh
        exact h1
      · rw [if_neg h1] at h; exact absurd h (by simp)
  | other => exact absurd h (by simp [excelRowNumber])

theorem mem_excelSource_ne_empty {file : Option (List CellValue)} {s : String}
    (h : s ∈ excelSource file) : s ≠ "" := by
  cases file with
  | none => exact absurd h (by simp [excelSource])
  | some rows =>
      obtain ⟨cell, _, hc⟩ := List.mem_filterMap.mp h
      exact cleanCell_ne_empty hc

theorem mem_listSource_spec {numbers : Option (List String)} {s : String}
    (h : s ∈ listSource numbers) : s ≠ "" ∧ s.data.all Char.isDigit = true := by
  cases numbers with
  | none => exact absurd h (by simp [listSource])
  | some l =>
      simp only [listSource] at h
      by_cases h1 : l.length > 0
      · rw [if_pos h1] at h
        obtain ⟨n, _, hc⟩ := List.mem_filterMap.mp h
        exact cleanRaw_spec hc
      · rw [if_neg h1] at h; exact absurd h (by simp)

theorem mem_textSource_spec {numbersText : Option String} {s : String}
    (h : s ∈ textSource numbersText) : s ≠ "" ∧ s.data.all Char.isDigit = true := by
  cases numbersText with
  | none => exact absurd h (by simp [textSource])
  | some t =>
      simp only [textSource] at h
      by_cases h1 : t = ""
      · rw [if_pos h1] at h; exact absurd h (by simp)
      · rw [if_neg h1] at h
        obtain ⟨n, _, hc⟩ := List.mem_filterMap.mp h
        exact cleanRaw_spec hc

/-- **C1 (counterexample)**: the invariant fails on two resolution paths.
On the standalone-extractor path (uploaded `excel` file) a spreadsheet
whose column A repeats a `+`-prefixed number resolves to a recipient list
with a duplicate and a non-digit character; and the unified parser passes
a fractional numeric cell's stringification through unstripped, so a
worksheet reaching `parsePhoneNumbers` contributes `"123.45"` with its
non-digit dot. -/
theorem C1_counterexample :
    (extractNumbersFromExcel (Except.ok
        [CellValue.str "Number", CellValue.str "+15550001111", CellValue.str "+15550001111"])
      = ["+15550001111", "+15550001111"]
    ∧ ¬ (["+15550001111", "+15550001111"] : List String).Nodup
    ∧ ("+15550001111" : String).data.all Char.isDigit = false)
    ∧ (parsePhoneNumbers (some [CellValue.str "Number", CellValue.num "123.45"]) none none
        = ["123.45"]
    ∧ ("123.45" : String).data.all Char.isDigit = false) :=
  ⟨⟨by decide, by decide, by decide⟩, by decide, by decide⟩

/-- **C1 (amended)**: the unified parser always yields a list with no
duplicates and no empty strings; explicit-list entries, text-block entries,
and string spreadsheet cells are digit-stripped, so on the `POST /api/send`
parser path — where `upload.fields` never sets `req.file`, leaving the
parser's worksheet input empty — the resolved set is entirely digits-only.
But a numeric spreadsheet cell reaching the parser contributes its
JavaScript stringification unstripped, so fractional, negative, or
exponent-form values leak non-digit characters.  The standalone-extractor
path guarantees only the strict validator pattern (optional `+` then 10-15
digits), without any dedup. -/
theorem C1_recipient_set_invariants (file : Option (List CellValue))
    (numbers : Option (List String)) (numbersText : Option String)
    (read : Except String (List CellValue)) :
    (parsePhoneNumbers file numbers numbersText).Nodup
    ∧ (∀ s ∈ parsePhoneNumbers file numbers numbersText, s ≠ "")
    ∧ (∀ s ∈ parsePhoneNumbers none numbers numbersText,
        s ≠ "" ∧ s.data.all Char.isDigit = true)
    ∧ (∀ s ∈ listSource numbers, s.data.all Char.isDigit = true)
    ∧ (∀ s ∈ textSource numbersText, s.data.all Char.isDigit = true)
    ∧ (∀ t s, cleanCell (CellValue.str t) = some s → s.data.all Char.isDigit = true)
    ∧ (∀ t, t ≠ "0" → t ≠ "NaN" → t ≠ "" → cleanCell (CellValue.num t) = some t)
    ∧ (∀ s ∈ extractNumbersFromExcel read, validatePhoneNumber s = true) := by
  refine ⟨jsSetDedup_nodup _, ?_, ?_, ?_, ?_, ?_, ?_, ?_⟩
  · intro s hs
    have hmem := mem_of_mem_jsSetDedup hs
    rcases List.mem_append.mp hmem with h | h
    · rcases List.mem_append.mp h with h | h
      · exact mem_excelSource_ne_empty h
      · exact (mem_listSource_spec h).1
    · exact (mem_textSource_spec h).1
  · intro s hs
    have hmem := mem_of_mem_jsSetDedup hs
    rcases List.mem_append.mp hmem with h | h
    · rcases List.mem_append.mp h with h | h
      · exact absurd h (by simp [excelSource])
      · exact mem_listSource_spec h
    · exact mem_textSource_spec h
  · intro s hs
    exact (mem_listSource_spec hs).2
  · intro s hs
    exact (mem_textSource_spec hs).2
  · intro t s h
    exact cleanCell_str_digits h
  · intro t h0 h1 h2
    exact cleanCell_num_passthrough h0 h1 h2
  · intro s hs
    cases read with
    | error e => exact absurd hs (by simp [extractNumbersFromExcel])
    | ok rows =>
        obtain ⟨cell, _, hc⟩ := List.mem_filterMap.mp hs
        exact excelRowNumber_spec hc

theorem C1_witness :
    ("15550001111" : String) ≠ ""
    ∧ ("15550001111" : String).data.all Char.isDigit = true :=
  (C1_recipient_set_invariants none none (some "+1 555-000-1111, 5550002222")
      (Except.error "unreadable")).2.2.1 "15550001111" (by decide)

end BulkSender

namespace BulkSender

/-- **C3 (counterexample)**: with the metadata array absent and the
metadata fetch succeeding but yielding an empty participant list, the
resolved participants are taken from the raw-evaluation fallback, not from
the fetched list — refuting "when the fetch succeeds, its returned list is
used" in the empty-result case. -/
theorem C3_counterexample :
    (resolveParticipants
        { name := "g", metaParticipants := none,
          fetchMetaResult := Except.ok (some []),
          participantsProp := PropShape.absent,
          rawEvalResult := Except.ok [Participant.plain "999@c.us"] }).1
      = [Participant.plain "999@c.us"]
    ∧ [Participant.plain "999@c.us"] ≠ ([] : List Participant) :=
  ⟨rfl, by decide⟩

/-- **C3 (amended)**: the fallback chain escalates in order — with the
metadata array present the fetch call is never attempted; with the array
absent and the fetch succeeding with a nonempty list, that list is used;
with both unavailable the property fallback is attempted before the
raw-evaluation last resort (which runs only if everything so far was
empty). -/
theorem C3_fallback_chain (c : GroupChat) :
    (∀ ps, c.metaParticipants = some ps → "fetchMeta" ∉ (resolveParticipants c).2)
    ∧ (∀ m, c.metaParticipants = none → c.fetchMetaResult = Except.ok m →
        m.getD [] ≠ [] → (resolveParticipants c).1 = m.getD [])
    ∧ (∀ e, c.metaParticipants = none → c.fetchMetaResult = Except.error e →
        (resolveParticipants c).2 = ["fetchMeta", "propFallback"]
        ∨ (resolveParticipants c).2 = ["fetchMeta", "propFallback", "rawEval"]) := by
  refine ⟨?_, ?_, ?_⟩
  · intro ps h
    simp only [resolveParticipants, resolveStage1, h]
    by_cases hemp : ps.isEmpty
    · rw [if_pos hemp]
      cases hraw : c.rawEvalResult with
      | ok l => exact (by decide : "fetchMeta" ∉ (["metaArray", "rawEval"] : List String))
      | error e => exact (by decide : "fetchMeta" ∉ (["metaArray", "rawEval"] : List String))
    · rw [if_neg hemp]
      exact (by decide : "fetchMeta" ∉ (["metaArray"] : List String))
  · intro m h1 h2 h3
    simp only [resolveParticipants, resolveStage1, h1, h2]
    have hemp : (m.getD []).isEmpty = false := by
      cases hm : m.getD [] with
      | nil => exact absurd hm h3
      | cons a l => rfl
    rw [if_neg (by simp [hemp])]
  · intro e h1 h2
    simp only [resolveParticipants, resolveStage1, h1, h2]
    by_cases hemp : (propParticipants c.participantsProp).isEmpty
    · rw [if_pos hemp]
      cases hraw : c.rawEvalResult with
      | ok l => right; rfl
      | error e2 => right; rfl
    · rw [if_neg hemp]
      left
      rfl

theorem C3_witness :
    "fetchMeta" ∉ (resolveParticipants
        { name := "g", metaParticipants := some [Participant.plain "1@c.us"],
          fetchMetaResult := Except.error "x", participantsProp := PropShape.absent,
          rawEvalResult := Except.error "y" }).2 :=
  (C3_fallback_chain _).1 [Participant.plain "1@c.us"] rfl

end BulkSender

namespace BulkSender

theorem processParticipant_plain_error (oracle : ExtractedId → Except String ContactInfo)
    (s e : String) (hs : s ≠ "") (h : oracle (ExtractedId.strId s) = Except.error e) :
    processParticipant oracle (Participant.plain s)
      = some { id := ExtractedId.strId s, number := splitAtHead s,
               name := "Unknown", isMyContact := false } := by
  simp only [processParticipant, participantIdOf, idTruthy]
  rw [if_pos (by simpa using hs), h]
  rfl

theorem processParticipant_serializedField_error
    (oracle : ExtractedId → Except String ContactInfo)
    (s e : String) (hs : s ≠ "") (h : oracle (ExtractedId.strId s) = Except.error e) :
    processParticipant oracle (Participant.withId (IdShape.serializedField s))
      = some { id := ExtractedId.strId s, number := splitAtHead s,
               name := "Unknown", isMyContact := false } := by
  simp only [processParticipant, participantIdOf, idTruthy, if_neg hs]
  rw [if_pos (by simpa using hs), h]
  simp only [degradedRecord, fallbackIdOf, if_neg hs]

theorem processParticipant_plainId_error (oracle : ExtractedId → Except String ContactInfo)
    (s e : String) (hs : s ≠ "") (h : oracle (ExtractedId.strId s) = Except.error e) :
    processParticipant oracle (Participant.withId (IdShape.plainId s))
      = some { id := ExtractedId.strId s, number := splitAtHead s,
               name := "Unknown", isMyContact := false } := by
  simp only [processParticipant, participantIdOf, idTruthy, if_neg hs]
  rw [if_pos (by simpa using hs), h]
  simp only [degradedRecord, fallbackIdOf, if_neg hs]

theorem processParticipant_withSerialized_error
    (oracle : ExtractedId → Except String ContactInfo)
    (s e : String) (hs : s ≠ "") (h : oracle (ExtractedId.strId s) = Except.error e) :
    processParticipant oracle (Participant.withSerialized s) = none := by
  simp only [processParticipant, participantIdOf, idTruthy, if_neg hs]
  rw [if_pos (by simpa using hs), h]
  simp only [degradedRecord, fallbackIdOf]

/-- **C6 (counterexample)**: a participant exposing only the `_serialized`
field, whose contact-detail fetch fails, is dropped from the output: the
catch-block identifier expression `participant.id?._serialized ||
participant.id || participant` falls through to the participant object,
whose `.split` throws, and the inner catch discards the record — even
though the main path had extracted a perfectly good string identifier. -/
theorem C6_counterexample :
    (extractGroupContacts
        (Except.ok
          { name := "g",
            metaParticipants := some [Participant.withSerialized "111@c.us"],
            fetchMetaResult := Except.error "x",
            participantsProp := PropShape.absent,
            rawEvalResult := Except.error "y" })
        (fun _ => Except.error "contact lookup failed")).contacts = []
    ∧ participantIdOf (Participant.withSerialized "111@c.us")
        = ExtractedId.strId "111@c.us" :=
  ⟨rfl, by decide⟩

/-- **C6 (amended)**: a participant whose contact-detail fetch fails still
appears as a degraded record (number parsed from its identifier, name
"Unknown") when its identifier came from a plain string or from an `id`
field; a participant exposing only `_serialized` is dropped instead. -/
theorem C6_degraded_participants (oracle : ExtractedId → Except String ContactInfo)
    (s e : String) (participants : List Participant) :
    (s ≠ "" → oracle (ExtractedId.strId s) = Except.error e →
      ∀ p, (p = Participant.plain s
            ∨ p = Participant.withId (IdShape.serializedField s)
            ∨ p = Participant.withId (IdShape.plainId s)) →
        processParticipant oracle p
            = some { id := ExtractedId.strId s, number := splitAtHead s,
                     name := "Unknown", isMyContact := false }
          ∧ (p ∈ participants →
              { id := ExtractedId.strId s, number := splitAtHead s,
                name := "Unknown", isMyContact := false }
                ∈ extractContacts oracle participants))
    ∧ (s ≠ "" → oracle (ExtractedId.strId s) = Except.error e →
        processParticipant oracle (Participant.withSerialized s) = none) := by
  constructor
  · intro hs herr p hp
    have hproc : processParticipant oracle p
        = some { id := ExtractedId.strId s, number := splitAtHead s,
                 name := "Unknown", isMyContact := false } := by
      rcases hp with rfl | rfl | rfl
      · exact processParticipant_plain_error oracle s e hs herr
      · exact processParticipant_serializedField_error oracle s e hs herr
      · exact processParticipant_plainId_error oracle s e hs herr
    exact ⟨hproc, fun hmem => List.mem_filterMap.mpr ⟨p, hmem, hproc⟩⟩
  · intro hs herr
    exact processParticipant_withSerialized_error oracle s e hs herr

theorem C6_witness :
    processParticipant (fun _ => Except.error "boom") (Participant.plain "222@c.us")
      = some { id := ExtractedId.strId "222@c.us", number := splitAtHead "222@c.us",
               name := "Unknown", isMyContact := false } :=
  ((C6_degraded_participants (fun _ => Except.error "boom") "222@c.us" "boom" []).1
      (by decide) rfl (Participant.plain "222@c.us") (Or.inl rfl)).1

end BulkSender
